import Mathlib

/-!
Shallow embedding of the document-context caching and retrieval layer of
src/app.py (a Streamlit + Ollama chat application).

Pure helpers of app.py are translated directly.  The Streamlit widget
handlers (model selection, file upload, file removal, chat submission) are
translated as explicit state-transition functions over a SessionState
record that mirrors st.session_state.  The external boundaries of the
source file — hashlib.sha256 hexdigest, the Python text codecs, and
ollama.chat in its non-streaming and streaming forms — are supplied as an
Env record of functions; ollama.chat calls that raise are modelled as
Except.error carrying str(e).  A Streamlit UploadedFile is modelled by its
byte content at upload time; because the upload handler reads the object
to end of file at app.py line 195 before storing it, the re-read of the
stored object at line 170 returns the empty byte string, and is modelled
so; the contents of the persisted file document_cache.json are
modelled by the cache_file field (none when the file does not exist), and
json.dump followed by json.load is modelled as the identity on the cache
mapping, the JSON library being external to the repository.
-/

/-- A byte of an uploaded file. -/
abbrev Byte := Fin 256

/-- A chat message: the dicts with keys role and content used throughout app.py. -/
structure Message where
  role : String
  content : String
deriving Repr, DecidableEq

/-- One value of st.session_state.document_cache, per the comment in
initialize_session: a dict with content, summary, timestamp and filename. -/
structure DocumentRecord where
  content : String
  summary : String
  timestamp : String
  filename : String
deriving Repr, DecidableEq

/-- st.session_state.document_cache: a Python dict keyed by the hex digest
string, modelled as an association list in insertion order. -/
abbrev Cache := List (String × DocumentRecord)

/-- Python dict membership and lookup on the cache. -/
def cacheGet : Cache → String → Option DocumentRecord
  | [], _ => none
  | (k2, r) :: rest, k => if k2 = k then some r else cacheGet rest k

/-- Python dict assignment on the cache: replaces the entry in place when
the key is present, otherwise appends a new entry. -/
def cacheSet : Cache → String → DocumentRecord → Cache
  | [], k, r => [(k, r)]
  | (k2, r2) :: rest, k, r =>
    if k2 = k then (k, r) :: rest else (k2, r2) :: cacheSet rest k r

/-- Number of entries the cache stores under one key. -/
def countKey : Cache → String → Nat
  | [], _ => 0
  | (k2, _) :: rest, k => (if k2 = k then 1 else 0) + countKey rest k

/-- Python str.startswith, as a prefix test on the character sequences. -/
def pyStartswith (s pre : String) : Bool := pre.data.isPrefixOf s.data

/-- st.session_state, restricted to the keys set up by initialize_session,
plus cache_file, the modelled contents of document_cache.json. -/
structure SessionState where
  messages : List Message
  file_content : String
  uploaded_file_obj : Option (List Byte)
  available_models : List String
  selected_model : Option String
  models_loaded : Bool
  ollama_error : Option String
  document_cache : Cache
  cache_file : Option Cache
deriving Repr, DecidableEq

/-- The defaults installed by initialize_session into a fresh session,
with no document_cache.json present on disk. -/
def initial_session : SessionState :=
  { messages := []
    file_content := ""
    uploaded_file_obj := none
    available_models := []
    selected_model := none
    models_loaded := false
    ollama_error := none
    document_cache := []
    cache_file := none }

/-- The external boundaries used by app.py: hashlib.sha256(...).hexdigest()
on the uploaded bytes, the two text codecs (returning none where the Python
decode call raises UnicodeDecodeError), and ollama.chat non-streaming
(returning the message content string, empty when absent) and streaming
(returning the list of chunk content strings); Except.error models a raised
exception, carrying str(e). -/
structure Env where
  sha256hex : List Byte → String
  utf8Decode : List Byte → Option String
  latin1Decode : List Byte → Option String
  chatComplete : String → List Message → Except String String
  chatStream : String → List Message → Except String (List String)

/-- The pending-summary sentinel literal of app.py lines 81 and 228. -/
def pendingSentinel : String := "Summary pending: Select a model to generate."

/-- The summarization prompt of app.py lines 83-86, with the input content
limited to its first 2000 characters. -/
def summaryPrompt (content : String) : String :=
  "Summarize the following document in 2-3 sentences, capturing the main points:\n\n"
    ++ content.take 2000

/-- Python str.strip with no argument: removes leading and trailing
whitespace, modelled on the character sequence of the string. -/
def pyStrip (s : String) : String :=
  String.mk (((s.data.dropWhile Char.isWhitespace).reverse.dropWhile
    Char.isWhitespace).reverse)

/-- summarize_document of app.py lines 77-101. -/
def summarize_document (chatComplete : String → List Message → Except String String)
    (content : String) (model : Option String) : String :=
  match model with
  | none => pendingSentinel
  | some m =>
    match chatComplete m [{ role := "user", content := summaryPrompt content }] with
    | Except.error e => "Summary could not be generated: " ++ e
    | Except.ok summary =>
      if summary = "" then "Summary could not be generated: Empty response."
      else pyStrip summary

/-- get_file_hash of app.py lines 72-74, the digest itself being the
external sha256hex boundary. -/
def get_file_hash (env : Env) (file_bytes : List Byte) : String :=
  env.sha256hex file_bytes

/-- save_cache_to_disk of app.py lines 104-113: writes the whole cache
mapping to document_cache.json. -/
def save_cache_to_disk (s : SessionState) : SessionState :=
  { s with cache_file := some s.document_cache }

/-- load_cache_from_disk of app.py lines 115-125: replaces the in-memory
cache with the file contents when the file exists, otherwise leaves the
session unchanged. -/
def load_cache_from_disk (s : SessionState) : SessionState :=
  match s.cache_file with
  | some c => { s with document_cache := c }
  | none => s

/-- Outcome reported by the upload handler branch taken. -/
inductive UploadOutcome where
  | cacheHit
  | stored (encoding : String)
  | decodeError
deriving Repr, DecidableEq

/-- app.py lines 220-239: the cache-miss tail of the upload handler, after
a successful decode has set st.session_state.file_content.  Generates the
summary (the pending literal when no model is selected), stores the new
record under the file hash, and saves the cache to disk. -/
def storeNewRecord (env : Env) (name now file_hash encoding : String)
    (content : String) (s0 : SessionState) : SessionState × UploadOutcome :=
  let s1 := { s0 with file_content := content }
  let summary :=
    match s1.selected_model with
    | some m => summarize_document env.chatComplete s1.file_content (some m)
    | none => pendingSentinel
  let newCache := cacheSet s1.document_cache file_hash
    { content := s1.file_content
      summary := summary
      timestamp := now
      filename := name }
  (save_cache_to_disk { s1 with document_cache := newCache }, UploadOutcome.stored encoding)

/-- app.py lines 192-245: the body of the upload handler, run when the
uploader widget delivers a new file (name, bytes) at wall-clock time now.
On a cache hit the cached content becomes the file content; on a miss the
bytes are decoded first as UTF-8 and then as Latin-1, and if both codecs
fail the file content and upload object are cleared and a decode error is
reported without touching the cache. -/
def fileUploadHandler (env : Env) (name now : String) (bytes : List Byte)
    (s : SessionState) : SessionState × UploadOutcome :=
  let s0 := { s with uploaded_file_obj := some bytes }
  let file_hash := get_file_hash env bytes
  match cacheGet s0.document_cache file_hash with
  | some r => ({ s0 with file_content := r.content }, UploadOutcome.cacheHit)
  | none =>
    match env.utf8Decode bytes with
    | some content => storeNewRecord env name now file_hash "UTF-8" content s0
    | none =>
      match env.latin1Decode bytes with
      | some content => storeNewRecord env name now file_hash "Latin-1" content s0
      | none =>
        ({ s0 with file_content := "", uploaded_file_obj := none },
          UploadOutcome.decodeError)

/-- app.py lines 247-251: the removal branch, run when the uploader widget
is empty while a file object is stored; clears the upload object and the
file content, and does nothing when no file object is stored. -/
def fileRemoveHandler (s : SessionState) : SessionState :=
  match s.uploaded_file_obj with
  | some _ => { s with uploaded_file_obj := none, file_content := "" }
  | none => s

/-- app.py lines 162-179: the model-selection branch, run with the value w
of the selectbox widget.  The placeholder resets the selected model to
none; a value different from the current selection is stored, and when a
file content and an upload object are present the handler re-reads the
stored upload object and hashes the result.  That object is an io.BytesIO
that the upload handler already read to end of file at line 195, so the
re-read at line 170 returns the empty byte string and the lookup keys on
the fingerprint of empty bytes; if that fingerprint is cached with a
summary starting with the pending prefix, that record's summary is
regenerated from the current file content with the new model, written
back under the same key, and the cache is saved to disk. -/
def selectModelHandler (env : Env) (w : String) (s : SessionState) : SessionState :=
  if w = "--- Select a Model ---" then
    { s with selected_model := none }
  else if s.selected_model = some w then
    s
  else
    let s1 := { s with selected_model := some w }
    if s1.file_content = "" then s1
    else
      match s1.uploaded_file_obj with
      | none => s1
      | some _ =>
        let file_hash := get_file_hash env []
        match cacheGet s1.document_cache file_hash with
        | none => s1
        | some r =>
          if pyStartswith r.summary "Summary pending" then
            let summary :=
              summarize_document env.chatComplete s1.file_content s1.selected_model
            let newCache := cacheSet s1.document_cache file_hash
              { r with summary := summary }
            save_cache_to_disk { s1 with document_cache := newCache }
          else s1

/-- app.py lines 294-310: the system prompt for a chat turn; when a file is
active, the first cache record whose content equals the active content
supplies the summary block, and otherwise the bare context block is used. -/
def findByContent : Cache → String → Option DocumentRecord
  | [], _ => none
  | (_, r) :: rest, content =>
    if r.content = content then some r else findByContent rest content

/-- The system prompt content assembled by app.py lines 294-309. -/
def composeSystemPrompt (s : SessionState) : String :=
  let base := "You are a helpful AI assistant."
  if s.file_content = "" then base
  else
    match findByContent s.document_cache s.file_content with
    | some r =>
      base ++ "\n\nUse the following document summary and context if relevant:\n"
        ++ "**Summary**: " ++ r.summary ++ "\n"
        ++ "**Full Context**:\n---CONTEXT START---\n" ++ s.file_content
        ++ "\n---CONTEXT END---"
    | none =>
      base ++ "\n\nUse the following text as context if relevant:\n"
        ++ "---CONTEXT START---\n" ++ s.file_content ++ "\n---CONTEXT END---"

/-- app.py lines 292-310: the message list sent to the streaming chat call,
the system message followed by the history including the just-appended
user message. -/
def composeContext (p : String) (s : SessionState) : List Message :=
  { role := "system", content := composeSystemPrompt s }
    :: (s.messages ++ [{ role := "user", content := p }])

/-- Outcome of a chat submission. -/
inductive ChatOutcome where
  | noSubmission
  | noModel
  | answered (response : String)
  | streamFailed (err : String)
deriving Repr, DecidableEq

/-- app.py lines 282-337: the chat submission handler for prompt p.  With
no model selected it stops before any provider call.  Otherwise the user
message is appended, the context composed, and the stream consumed; chunk
contents are concatenated in order (empty chunks contribute nothing).  On
success the assistant message is appended; on a raised stream the
just-appended trailing user message is popped. -/
def submitPromptHandler (env : Env) (p : String) (s : SessionState) :
    SessionState × ChatOutcome :=
  if p = "" then (s, ChatOutcome.noSubmission)
  else
    match s.selected_model with
    | none => (s, ChatOutcome.noModel)
    | some model =>
      let s1 := { s with messages := s.messages ++ [Message.mk "user" p] }
      let full_context := composeContext p s
      match env.chatStream model full_context with
      | Except.ok chunks =>
        let full_response := String.join chunks
        ({ s1 with
            messages := s1.messages ++ [Message.mk "assistant" full_response] },
          ChatOutcome.answered full_response)
      | Except.error e =>
        let s2 :=
          match s1.messages.getLast? with
          | some last =>
            if last.role = "user" then { s1 with messages := s1.messages.dropLast } else s1
          | none => s1
        (s2, ChatOutcome.streamFailed e)

/-- A user action dispatched to the session controller. -/
inductive Event where
  | upload (name now : String) (bytes : List Byte)
  | removeUpload
  | selectModel (widget : String)
  | submitPrompt (text : String)

/-- The state transition of one user action. -/
def step (env : Env) (e : Event) (s : SessionState) : SessionState :=
  match e with
  | Event.upload name now bytes => (fileUploadHandler env name now bytes s).1
  | Event.removeUpload => fileRemoveHandler s
  | Event.selectModel w => selectModelHandler env w s
  | Event.submitPrompt p => (submitPromptHandler env p s).1

/-- The Python latin-1 codec: total on byte sequences, each byte mapping to
the Unicode code point of the same value. -/
def pyLatin1Decode (bs : List Byte) : Option String :=
  some (String.mk (bs.map (fun b => Char.ofNat b.val)))

/-- UTF-8 decoding restricted to the ASCII plane: agrees with the real
codec on ASCII-only inputs and reports failure elsewhere; used to
instantiate the utf8Decode boundary in concrete scenarios. -/
def asciiDecode (bs : List Byte) : Option String :=
  if bs.all (fun b => decide (b.val < 128)) then
    some (String.mk (bs.map (fun b => Char.ofNat b.val)))
  else none

/-- A concrete environment for closed scenarios: a deterministic stand-in
digest, the ASCII-plane UTF-8 codec, the real latin-1 codec, and providers
that answer with fixed text. -/
def env0 : Env :=
  { sha256hex := fun bs => toString (bs.map Fin.val)
    utf8Decode := asciiDecode
    latin1Decode := pyLatin1Decode
    chatComplete := fun _ _ => Except.ok "A short synopsis of the document."
    chatStream := fun _ _ => Except.ok ["Hello ", "there."] }

/-- An environment whose two codecs reject every input, realizing the
branch of app.py lines 213-218 in which both decode calls raise. -/
def envNoDecode : Env :=
  { env0 with utf8Decode := fun _ => none, latin1Decode := fun _ => none }

/-! ## Cache lemmas -/

/-- Looking up the key just written returns the record just written. -/
theorem cacheGet_cacheSet_self (c : Cache) (k : String) (r : DocumentRecord) :
    cacheGet (cacheSet c k r) k = some r := by
  induction c with
  | nil => simp [cacheSet, cacheGet]
  | cons hd tl ih =>
    by_cases h : hd.1 = k
    · simp [cacheSet, cacheGet, h]
    · simp [cacheSet, cacheGet, h, ih]

/-- Writing under one key leaves lookups under any other key unchanged. -/
theorem cacheGet_cacheSet_ne (c : Cache) (k k2 : String) (r : DocumentRecord)
    (h : k ≠ k2) : cacheGet (cacheSet c k2 r) k = cacheGet c k := by
  induction c with
  | nil => simp [cacheSet, cacheGet, Ne.symm h]
  | cons hd tl ih =>
    by_cases h2 : hd.1 = k2
    · simp [cacheSet, cacheGet, h2, Ne.symm h]
    · by_cases h1 : hd.1 = k
      · simp [cacheSet, cacheGet, h1, h2, Ne.symm h, h]
      · simp [cacheSet, cacheGet, h1, h2, ih]

/-- A key that looks up to nothing has no entries. -/
theorem countKey_eq_zero_of_none (c : Cache) (k : String)
    (h : cacheGet c k = none) : countKey c k = 0 := by
  induction c with
  | nil => simp [countKey]
  | cons hd tl ih =>
    by_cases h1 : hd.1 = k
    · simp [cacheGet, h1] at h
    · simp [cacheGet, h1] at h
      simp [countKey, h1, ih h]

/-- Writing a fresh key yields exactly one entry under it. -/
theorem countKey_cacheSet_one (c : Cache) (k : String) (r : DocumentRecord)
    (h : cacheGet c k = none) : countKey (cacheSet c k r) k = 1 := by
  induction c with
  | nil => simp [cacheSet, countKey]
  | cons hd tl ih =>
    by_cases h1 : hd.1 = k
    · simp [cacheGet, h1] at h
    · simp [cacheGet, h1] at h
      simp [cacheSet, countKey, h1, ih h]

/-- A summary that starts with the failure prefix does not start with the
pending prefix. -/
theorem failure_not_pending (t : String)
    (h : pyStartswith t "Summary could not be generated" = true) :
    pyStartswith t "Summary pending" = false := by
  by_contra hpc
  rw [Bool.not_eq_false] at hpc
  unfold pyStartswith at h hpc
  rw [List.isPrefixOf_iff_prefix] at h hpc
  have hle : ("Summary pending".data).length ≤
      ("Summary could not be generated".data).length := by decide
  have hcontra := List.prefix_of_prefix_length_le hpc h hle
  revert hcontra
  decide

/-! ## Claim theorems -/

/-- Claim C7: for every cache mapping, save followed by load into a fresh
store reproduces the same mapping of fingerprint keys to records (content,
summary, timestamp and filename all equal, by record equality). -/
theorem c7_save_load_roundtrip (s : SessionState) :
    (load_cache_from_disk
      { initial_session with
          cache_file := (save_cache_to_disk s).cache_file }).document_cache
      = s.document_cache := by
  simp [save_cache_to_disk, load_cache_from_disk]

/-- Claim C8: summarize_document with an absent model returns the pending
sentinel and its result does not depend on the provider, so no provider
call is made; with a model present, a provider call that raises with
message e yields the failure sentinel carrying e, and an empty reply
yields the empty-response failure sentinel; being a total function, it
never raises. -/
theorem c8_summarizer_totality_sentinels :
    (∀ (comp comp2 : String → List Message → Except String String) (content : String),
      summarize_document comp content none = pendingSentinel ∧
      summarize_document comp content none = summarize_document comp2 content none) ∧
    (∀ (comp : String → List Message → Except String String) (content m e : String),
      comp m [{ role := "user", content := summaryPrompt content }] = Except.error e →
      summarize_document comp content (some m) = "Summary could not be generated: " ++ e) ∧
    (∀ (comp : String → List Message → Except String String) (content m : String),
      comp m [{ role := "user", content := summaryPrompt content }] = Except.ok "" →
      summarize_document comp content (some m) =
        "Summary could not be generated: Empty response.") := by
  refine ⟨?_, ?_, ?_⟩
  · intro comp comp2 content
    exact ⟨rfl, rfl⟩
  · intro comp content m e h
    simp [summarize_document, h]
  · intro comp content m h
    simp [summarize_document, h]

/-- Witness for C8 at concrete providers and content. -/
theorem c8_witness :
    summarize_document (fun _ _ => Except.error "connection refused") "doc" none
        = pendingSentinel ∧
    summarize_document (fun _ _ => Except.error "connection refused") "doc" (some "m1")
        = "Summary could not be generated: " ++ "connection refused" ∧
    summarize_document (fun _ _ => Except.ok "") "doc" (some "m1")
        = "Summary could not be generated: Empty response." :=
  ⟨(c8_summarizer_totality_sentinels.1
      (fun _ _ => Except.error "connection refused") (fun _ _ => Except.ok "x") "doc").1,
    c8_summarizer_totality_sentinels.2.1
      (fun _ _ => Except.error "connection refused") "doc" "m1" "connection refused" rfl,
    c8_summarizer_totality_sentinels.2.2
      (fun _ _ => Except.ok "") "doc" "m1" rfl⟩

/-- Claim C5: submitting a prompt with no model selected leaves the whole
session state (in particular the conversation history) unchanged, and the
result is the same for every provider environment, so the chat provider is
never invoked. -/
theorem c5_no_model_precondition (env : Env) (p : String) (s : SessionState)
    (hm : s.selected_model = none) (hp : p ≠ "") :
    submitPromptHandler env p s = (s, ChatOutcome.noModel) := by
  simp [submitPromptHandler, hm, hp]

/-- Witness for C5 at a concrete prompt and the fresh session. -/
theorem c5_witness :
    submitPromptHandler env0 "What is this about?" initial_session
      = (initial_session, ChatOutcome.noModel) :=
  c5_no_model_precondition env0 "What is this about?" initial_session rfl (by decide)

/-- Claim C3: when the streaming provider call raises, the chat submission
handler restores the session state exactly (the just-appended user entry
is removed and no assistant entry is present). -/
theorem c3_stream_failure_rollback (env : Env) (p : String) (s : SessionState)
    (m err : String)
    (hm : s.selected_model = some m) (hp : p ≠ "")
    (hstream : env.chatStream m (composeContext p s) = Except.error err) :
    submitPromptHandler env p s = (s, ChatOutcome.streamFailed err) := by
  simp [submitPromptHandler, hm, hp, hstream]
  rw [← hm]

/-- A provider environment whose streaming call always raises. -/
def envStreamFail : Env :=
  { env0 with chatStream := fun _ _ => Except.error "connection reset" }

/-- A session with a model selected and a nonempty history. -/
def sessionWithModel : SessionState :=
  { initial_session with
      selected_model := some "m1"
      messages := [Message.mk "user" "hello", Message.mk "assistant" "hi"] }

/-- Witness for C3: a concrete failing stream leaves the concrete history
exactly as it was. -/
theorem c3_witness :
    submitPromptHandler envStreamFail "What is this about?" sessionWithModel
      = (sessionWithModel, ChatOutcome.streamFailed "connection reset") :=
  c3_stream_failure_rollback envStreamFail "What is this about?" sessionWithModel
    "m1" "connection reset" rfl (by decide) rfl

/-- Claim C9: the Latin-1 decode is total on byte sequences, so with the
real Latin-1 codec installed as the secondary decoder the decode-error
branch of the upload handler can never be taken. -/
theorem c9_latin1_total_no_decode_error :
    (∀ bs : List Byte, (pyLatin1Decode bs).isSome = true) ∧
    (∀ env : Env, env.latin1Decode = pyLatin1Decode →
      ∀ (name now : String) (bytes : List Byte) (s : SessionState),
        (fileUploadHandler env name now bytes s).2 ≠ UploadOutcome.decodeError) := by
  constructor
  · intro bs
    rfl
  · intro env hlat name now bytes s
    unfold fileUploadHandler
    cases hget : cacheGet s.document_cache (get_file_hash env bytes) with
    | some r => simp [hget]
    | none =>
      cases hdec : env.utf8Decode bytes with
      | some content => simp [hget, hdec, storeNewRecord]
      | none => simp [hget, hdec, hlat, pyLatin1Decode, storeNewRecord]

/-- Witness for C9 at a non-ASCII byte and the concrete environment. -/
theorem c9_witness :
    (pyLatin1Decode [200]).isSome = true ∧
    (fileUploadHandler env0 "f.bin" "t0" [200] initial_session).2
      ≠ UploadOutcome.decodeError :=
  ⟨c9_latin1_total_no_decode_error.1 [200],
    c9_latin1_total_no_decode_error.2 env0 rfl "f.bin" "t0" [200] initial_session⟩

/-- Claim C10: a cached record whose summary starts with the failure
prefix is never changed by any later session event: the model-selection
handler regenerates only summaries starting with the pending prefix, and
no other event writes an existing record, so a failed summary is permanent
for its fingerprint. -/
theorem c10_failure_summary_permanent (env : Env) (e : Event) (s : SessionState)
    (k : String) (r : DocumentRecord)
    (hget : cacheGet s.document_cache k = some r)
    (hfail : pyStartswith r.summary "Summary could not be generated" = true) :
    cacheGet (step env e s).document_cache k = some r := by
  cases e with
  | upload name now bytes =>
    cases hh : cacheGet s.document_cache (get_file_hash env bytes) with
    | some r2 => simp [step, fileUploadHandler, hh, hget]
    | none =>
      have hk : k ≠ get_file_hash env bytes := by
        intro hkk
        rw [hkk, hh] at hget
        cases hget
      cases hdec : env.utf8Decode bytes with
      | some c =>
        simp [step, fileUploadHandler, hh, hdec, storeNewRecord,
          save_cache_to_disk, cacheGet_cacheSet_ne _ _ _ _ hk, hget]
      | none =>
        cases hlat : env.latin1Decode bytes with
        | some c =>
          simp [step, fileUploadHandler, hh, hdec, hlat, storeNewRecord,
            save_cache_to_disk, cacheGet_cacheSet_ne _ _ _ _ hk, hget]
        | none => simp [step, fileUploadHandler, hh, hdec, hlat, hget]
  | removeUpload =>
    cases hobj : s.uploaded_file_obj with
    | some b => simp [step, fileRemoveHandler, hobj, hget]
    | none => simp [step, fileRemoveHandler, hobj, hget]
  | selectModel w =>
    by_cases hw : w = "--- Select a Model ---"
    · simp [step, selectModelHandler, hw, hget]
    · by_cases hsel : s.selected_model = some w
      · simp [step, selectModelHandler, hw, hsel, hget]
      · by_cases hfc : s.file_content = ""
        · simp [step, selectModelHandler, hw, hsel, hfc, hget]
        · cases hobj : s.uploaded_file_obj with
          | none => simp [step, selectModelHandler, hw, hsel, hfc, hobj, hget]
          | some bytes =>
            cases hh : cacheGet s.document_cache (get_file_hash env []) with
            | none => simp [step, selectModelHandler, hw, hsel, hfc, hobj, hh, hget]
            | some r2 =>
              by_cases hkk : k = get_file_hash env []
              · subst hkk
                rw [hget] at hh
                injection hh with hr2
                subst hr2
                have hnp := failure_not_pending r.summary hfail
                simp [step, selectModelHandler, hw, hsel, hfc, hobj, hget, hnp]
              · by_cases hpend : pyStartswith r2.summary "Summary pending" = true
                · simp [step, selectModelHandler, hw, hsel, hfc, hobj, hh, hpend,
                    save_cache_to_disk, cacheGet_cacheSet_ne _ _ _ _ hkk, hget]
                · simp [step, selectModelHandler, hw, hsel, hfc, hobj, hh, hpend, hget]
  | submitPrompt p =>
    by_cases hp : p = ""
    · simp [step, submitPromptHandler, hp, hget]
    · cases hsel : s.selected_model with
      | none => simp [step, submitPromptHandler, hp, hsel, hget]
      | some m =>
        cases hstr : env.chatStream m (composeContext p s) with
        | ok chunks => simp [step, submitPromptHandler, hp, hsel, hstr, hget]
        | error err => simp [step, submitPromptHandler, hp, hsel, hstr, hget]

/-- A record carrying a failure-sentinel summary, for the C10 witness. -/
def failedRecord : DocumentRecord :=
  { content := "doc body"
    summary := "Summary could not be generated: timeout"
    timestamp := "t0"
    filename := "doc.txt" }

/-- A session holding failedRecord as the active document, for the C10
witness. -/
def failedSession : SessionState :=
  { initial_session with
      file_content := "doc body"
      uploaded_file_obj := some [104]
      document_cache := [(toString [(104 : Nat)], failedRecord)] }

/-- Witness for C10: selecting a model over a concrete failed summary
leaves the record intact. -/
theorem c10_witness :
    cacheGet (step env0 (Event.selectModel "m1") failedSession).document_cache
      (toString [(104 : Nat)]) = some failedRecord :=
  c10_failure_summary_permanent env0 (Event.selectModel "m1") failedSession
    (toString [(104 : Nat)]) failedRecord (by decide) (by decide)

/-- Claim C1, evaluated at the failing input: uploading a nonempty
document with no model selected caches its record with the pending
sentinel under the fingerprint of its bytes; subsequently selecting a
model stores the model but leaves that record's summary equal to the
pending sentinel and the persisted file unchanged, because the handler
hashes the re-read of the already-exhausted upload object (the empty byte
string), whose fingerprint differs from the record's key, so the
regeneration lookup misses and the claimed transition never fires. -/
theorem c1_pending_never_regenerated :
    (selectModelHandler env0 "m1"
        (fileUploadHandler env0 "hi.txt" "t0" [104, 105] initial_session).1).selected_model
      = some "m1" ∧
    get_file_hash env0 [] ≠ get_file_hash env0 [104, 105] ∧
    cacheGet (selectModelHandler env0 "m1"
        (fileUploadHandler env0 "hi.txt" "t0" [104, 105] initial_session).1).document_cache
        (get_file_hash env0 [104, 105])
      = some { content := "hi", summary := pendingSentinel, timestamp := "t0",
               filename := "hi.txt" } ∧
    (selectModelHandler env0 "m1"
        (fileUploadHandler env0 "hi.txt" "t0" [104, 105] initial_session).1).cache_file
      = some [(get_file_hash env0 [104, 105],
          { content := "hi", summary := pendingSentinel, timestamp := "t0",
            filename := "hi.txt" })] :=
  ⟨rfl, by decide, rfl, rfl⟩

/-- Counterexample to claim C2 as stated: uploading a document whose
content differs from the active document does not clear the conversation
history; the two history entries survive the document change. -/
theorem c2_counterexample :
    ((fileUploadHandler env0 "b.txt" "t1" [66]
        { initial_session with
            messages := [Message.mk "user" "q", Message.mk "assistant" "a"]
            file_content := "A"
            uploaded_file_obj := some [65]
            document_cache := [(toString [(65 : Nat)],
              { content := "A", summary := pendingSentinel, timestamp := "t0",
                filename := "a.txt" })] }).1.messages
      = [Message.mk "user" "q", Message.mk "assistant" "a"]) ∧
    ((fileUploadHandler env0 "b.txt" "t1" [66]
        { initial_session with
            messages := [Message.mk "user" "q", Message.mk "assistant" "a"]
            file_content := "A"
            uploaded_file_obj := some [65]
            document_cache := [(toString [(65 : Nat)],
              { content := "A", summary := pendingSentinel, timestamp := "t0",
                filename := "a.txt" })] }).1.file_content = "B") :=
  ⟨rfl, rfl⟩

/-- Claim C2 amended: in app.py the upload handler and the removal handler
leave the conversation history unchanged in every branch; the removal
handler clears the upload object and the file content when an upload is
stored, and is the identity (hence idempotent) when the upload object is
already clear. -/
theorem c2_history_preserved (env : Env) (name now : String) (bytes : List Byte)
    (s : SessionState) :
    (fileUploadHandler env name now bytes s).1.messages = s.messages ∧
    (fileRemoveHandler s).messages = s.messages ∧
    (fileRemoveHandler { s with uploaded_file_obj := some bytes }).uploaded_file_obj
      = none ∧
    (fileRemoveHandler { s with uploaded_file_obj := some bytes }).file_content = "" ∧
    fileRemoveHandler { s with uploaded_file_obj := none }
      = { s with uploaded_file_obj := none } := by
  refine ⟨?_, ?_, ?_, ?_, ?_⟩
  · cases hh : cacheGet s.document_cache (get_file_hash env bytes) with
    | some r => simp [fileUploadHandler, hh]
    | none =>
      cases hdec : env.utf8Decode bytes with
      | some c => simp [fileUploadHandler, hh, hdec, storeNewRecord, save_cache_to_disk]
      | none =>
        cases hlat : env.latin1Decode bytes with
        | some c =>
          simp [fileUploadHandler, hh, hdec, hlat, storeNewRecord, save_cache_to_disk]
        | none => simp [fileUploadHandler, hh, hdec, hlat]
  · cases hobj : s.uploaded_file_obj with
    | some b => simp [fileRemoveHandler, hobj]
    | none => simp [fileRemoveHandler, hobj]
  · simp [fileRemoveHandler]
  · simp [fileRemoveHandler]
  · simp [fileRemoveHandler]

/-- A session with an active decoded document, a stored upload object and
a nonempty history, from before a failing upload. -/
def staleSession : SessionState :=
  { initial_session with
      messages := [Message.mk "user" "q"]
      file_content := "old document"
      uploaded_file_obj := some [1] }

/-- Counterexample to claim C4 as stated: when both decoders fail, the
handler reports a decode error and creates no record, but it does not
leave the session unchanged: the active document content is cleared. -/
theorem c4_counterexample :
    (fileUploadHandler envNoDecode "x.bin" "t1" [7] staleSession).2
      = UploadOutcome.decodeError ∧
    staleSession.file_content = "old document" ∧
    (fileUploadHandler envNoDecode "x.bin" "t1" [7] staleSession).1.file_content = "" :=
  ⟨rfl, rfl, rfl⟩

/-- Claim C4 amended: for an upload, not already cached, whose bytes fail
both decoders, a decode error is reported, no cache record is created, and
the cache store, the persisted file and the conversation history are
unchanged — but the active document content and the stored upload object
are cleared rather than left unchanged. -/
theorem c4_decode_failure (env : Env) (name now : String) (bytes : List Byte)
    (s : SessionState)
    (hmiss : cacheGet s.document_cache (get_file_hash env bytes) = none)
    (hutf : env.utf8Decode bytes = none)
    (hlat : env.latin1Decode bytes = none) :
    fileUploadHandler env name now bytes s
      = ({ s with file_content := "", uploaded_file_obj := none },
          UploadOutcome.decodeError) := by
  simp [fileUploadHandler, hmiss, hutf, hlat]

/-- Witness for the amended C4 at concrete bytes and session. -/
theorem c4_witness :
    fileUploadHandler envNoDecode "x.bin" "t1" [7] staleSession
      = ({ staleSession with file_content := "", uploaded_file_obj := none },
          UploadOutcome.decodeError) :=
  c4_decode_failure envNoDecode "x.bin" "t1" [7] staleSession rfl rfl rfl

/-- A cache-miss upload whose bytes decode (the secondary codec being the
real Latin-1 one, they always do) writes the cache exactly once, under the
fingerprint of the bytes. -/
theorem upload_miss_sets_cache (env : Env) (name now : String) (bytes : List Byte)
    (s : SessionState)
    (hmiss : cacheGet s.document_cache (get_file_hash env bytes) = none)
    (hlat : env.latin1Decode = pyLatin1Decode) :
    ∃ rec : DocumentRecord,
      (fileUploadHandler env name now bytes s).1.document_cache
        = cacheSet s.document_cache (get_file_hash env bytes) rec := by
  cases hdec : env.utf8Decode bytes with
  | some c =>
    exact ⟨{ content := c
             summary := match s.selected_model with
               | some m => summarize_document env.chatComplete c (some m)
               | none => pendingSentinel
             timestamp := now
             filename := name },
      by simp [fileUploadHandler, hmiss, hdec, storeNewRecord, save_cache_to_disk]⟩
  | none =>
    exact ⟨{ content := String.mk (bytes.map (fun b => Char.ofNat b.val))
             summary := match s.selected_model with
               | some m => summarize_document env.chatComplete
                   (String.mk (bytes.map (fun b => Char.ofNat b.val))) (some m)
               | none => pendingSentinel
             timestamp := now
             filename := name },
      by simp [fileUploadHandler, hmiss, hdec, hlat, pyLatin1Decode,
        storeNewRecord, save_cache_to_disk]⟩

/-- An upload whose fingerprint is already cached is a pure cache hit: it
only restores the cached content and stores the upload object. -/
theorem upload_hit_preserves (env : Env) (name now : String) (bytes : List Byte)
    (s1 : SessionState) (rec : DocumentRecord)
    (hhit : cacheGet s1.document_cache (get_file_hash env bytes) = some rec) :
    fileUploadHandler env name now bytes s1
      = ({ s1 with uploaded_file_obj := some bytes, file_content := rec.content },
          UploadOutcome.cacheHit) := by
  simp [fileUploadHandler, hhit]

/-- Claim C6: with the real Latin-1 codec as the secondary decoder,
uploading not-yet-cached bytes and then uploading the same bytes again
leaves exactly one cache entry under the shared fingerprint; the second
upload reports a cache hit, does not modify the stored mapping, and its
result does not depend on the summarization provider, so the summarizer is
not invoked again. -/
theorem c6_upload_idempotent (env : Env) (name1 now1 name2 now2 : String)
    (bytes : List Byte) (s : SessionState)
    (hmiss : cacheGet s.document_cache (get_file_hash env bytes) = none)
    (hlat : env.latin1Decode = pyLatin1Decode) :
    countKey (fileUploadHandler env name1 now1 bytes s).1.document_cache
        (get_file_hash env bytes) = 1 ∧
    (fileUploadHandler env name2 now2 bytes
        (fileUploadHandler env name1 now1 bytes s).1).1.document_cache
      = (fileUploadHandler env name1 now1 bytes s).1.document_cache ∧
    (fileUploadHandler env name2 now2 bytes
        (fileUploadHandler env name1 now1 bytes s).1).2 = UploadOutcome.cacheHit ∧
    (∀ comp : String → List Message → Except String String,
      fileUploadHandler { env with chatComplete := comp } name2 now2 bytes
          (fileUploadHandler env name1 now1 bytes s).1
        = fileUploadHandler env name2 now2 bytes
            (fileUploadHandler env name1 now1 bytes s).1) := by
  obtain ⟨rec, hc⟩ := upload_miss_sets_cache env name1 now1 bytes s hmiss hlat
  have hhit : cacheGet (fileUploadHandler env name1 now1 bytes s).1.document_cache
      (get_file_hash env bytes) = some rec := by
    rw [hc]
    exact cacheGet_cacheSet_self _ _ _
  refine ⟨?_, ?_, ?_, ?_⟩
  · rw [hc]
    exact countKey_cacheSet_one _ _ _ hmiss
  · rw [upload_hit_preserves env name2 now2 bytes _ rec hhit]
  · rw [upload_hit_preserves env name2 now2 bytes _ rec hhit]
  · intro comp
    rw [upload_hit_preserves { env with chatComplete := comp } name2 now2 bytes _ rec hhit,
      upload_hit_preserves env name2 now2 bytes _ rec hhit]

/-- Witness for C6 at concrete bytes and the fresh session. -/
theorem c6_witness :
    countKey (fileUploadHandler env0 "a.txt" "t0" [104, 105] initial_session).1.document_cache
        (get_file_hash env0 [104, 105]) = 1 ∧
    (fileUploadHandler env0 "a.txt" "t1" [104, 105]
        (fileUploadHandler env0 "a.txt" "t0" [104, 105] initial_session).1).2
      = UploadOutcome.cacheHit :=
  ⟨(c6_upload_idempotent env0 "a.txt" "t0" "a.txt" "t1" [104, 105]
      initial_session rfl rfl).1,
    (c6_upload_idempotent env0 "a.txt" "t0" "a.txt" "t1" [104, 105]
      initial_session rfl rfl).2.2.1⟩
